import Mathlib

/-!
Verification of the rcoffee change-detection-and-reconciliation coordinator
(`src/rcoffee/process.py`) against its natural-language specification.

The Python module is a single-threaded cooperative (asyncio) program.  We give a
shallow embedding of the parts the specification talks about:

* the rclone command lines the code builds (`_run_rclone`, `_transfer`,
  `_sync_update`, `_copy_update`, and the dedupe command),
* the trace of subprocess events an ACTION phase issues (`_cross_copy`,
  `_dedupe_events`, `_resolve_direction`, `_sync_action`),
* the batching loop of `_sync` (lines 104-109) as a function of the change
  events delivered during each cooldown sleep (`_sync_batch`),
* one cycle of `_poll_remote` (lines 79-90) over the parsed listing
  (`_poll_cycle`, `_fetch_remote_state`),
* the termination behaviour of `asyncio.gather` as used by `run_async`
  (`gatherResolved`).

A key point of the embedding of subprocess calls: in the source,
`_run_cmd` returns the coroutine `asyncio.create_subprocess_exec(...)`, and
`await`-ing it resolves as soon as the child process has been *started*, not
when it exits; the code never calls `wait()` or `communicate()` on a transfer
process (only `_fetch_remote_state` reads the child's stdout to EOF, which does
wait for `lsjson` to finish).  We therefore record each transfer invocation as
a `spawn` event; the event alphabet also has a `waitExit` constructor so that
"the code waits for the process to exit" is expressible, and the theorems show
the transfer traces contain no such event.
-/

namespace RCoffee

/-- The configuration fields of the `Process` dataclass (`process.py` lines
29-37).  `local_path` is a filesystem path, modelled as a string like
`remote_path`; `modify_window` is passed verbatim to rclone as a string; the
two durations are opaque to the claims and modelled as seconds. -/
structure Process where
  remote_path : String
  local_path : String
  modify_window : String
  batch_cooldown : Nat
  poll_interval : Nat
deriving DecidableEq

/-- An event in the subprocess trace of the program.  `spawn cmd` is the start
of a child process running `cmd` (what `await`-ing
`asyncio.create_subprocess_exec` produces); `waitExit cmd` would be a wait for
that child's termination (`wait()`/`communicate()`/reading stdout to EOF).
The source never performs `waitExit` on a transfer process. -/
inductive RcloneEvent where
  | spawn (cmd : List String)
  | waitExit (cmd : List String)
deriving DecidableEq

/-- Whether an event is a process spawn. -/
def RcloneEvent.isSpawn : RcloneEvent → Bool
  | .spawn _ => true
  | .waitExit _ => false

/-- The command line of an event. -/
def RcloneEvent.cmdOf : RcloneEvent → List String
  | .spawn c => c
  | .waitExit c => c

/-- `_run_rclone` (lines 42-43): builds the argument vector
`rclone <command> -vv <args...>`. -/
def _run_rclone (command : String) (args : List String) : List String :=
  ["rclone", command, "-vv"] ++ args

/-- `_transfer` (lines 45-46): a transfer command with update-only semantics
( `--update` ) and the configured modify window. -/
def _transfer (cfg : Process) (command source dest : String) : List String :=
  _run_rclone command
    (["--update", "--modify-window=" ++ cfg.modify_window, source, dest])

/-- `_sync_update` (lines 48-49): a mirror-sync from `source` to `dest`. -/
def _sync_update (cfg : Process) (source dest : String) : List String :=
  _transfer cfg ("sync") source dest

/-- `_copy_update` (lines 51-52): a copy from `source` to `dest`. -/
def _copy_update (cfg : Process) (source dest : String) : List String :=
  _transfer cfg ("copy") source dest

/-- The dedupe command built in `_dedupe` (line 62):
`rclone dedupe -vv --dedupe-mode newest <remote_path>`. -/
def _dedupe_cmd (cfg : Process) : List String :=
  _run_rclone ("dedupe") (["--dedupe-mode", "newest", cfg.remote_path])

/-- `_cross_copy` (lines 54-58): spawns a copy remote→local, then a copy
local→remote.  Each `await` returns at spawn time (see the header note), so
the trace holds exactly the two spawn events, in source order. -/
def _cross_copy (cfg : Process) : List RcloneEvent :=
  [.spawn (_copy_update cfg cfg.remote_path cfg.local_path),
   .spawn (_copy_update cfg cfg.local_path cfg.remote_path)]

/-- `_dedupe` (lines 60-63): spawns the dedupe command on the remote. -/
def _dedupe_events (cfg : Process) : List RcloneEvent :=
  [.spawn (_dedupe_cmd cfg)]

/-- The `if / elif / elif / else` chain of `_sync` (lines 115-125) resolving
the direction from the recorded flags.  `none` models the
`assert False, "Unreachable"` branch (the coroutine raises). -/
def _resolve_direction (cfg : Process) (need_push need_pull : Bool) :
    Option (List RcloneEvent) :=
  if need_push && need_pull then some (_cross_copy cfg)
  else if need_push then
    some [.spawn (_sync_update cfg cfg.local_path cfg.remote_path)]
  else if need_pull then
    some [.spawn (_sync_update cfg cfg.remote_path cfg.local_path)]
  else none

/-- One ACTION phase of `_sync` (lines 113-129): dedupe, the resolved sync
action, dedupe.  `none` models the phase aborting through the assertion
(in the source the first dedupe has then already been spawned; the aborted
partial trace is not needed by any claim, only unreachability is). -/
def _sync_action (cfg : Process) (need_push need_pull : Bool) :
    Option (List RcloneEvent) :=
  match _resolve_direction cfg need_push need_pull with
  | some mid => some (_dedupe_events cfg ++ mid ++ _dedupe_events cfg)
  | none => none

/-- Is the event a spawn/wait of an rclone `copy` command?  The subcommand is
argument 1 of the vector built by `_run_rclone`. -/
def isCopy (e : RcloneEvent) : Bool :=
  match e.cmdOf[1]? with
  | some c => c == "copy"
  | none => false

/-- Is the event a spawn/wait of an rclone `sync` command? -/
def isSync (e : RcloneEvent) : Bool :=
  match e.cmdOf[1]? with
  | some c => c == "sync"
  | none => false

/-- Is the event a spawn/wait of an rclone `dedupe` command? -/
def isDedupe (e : RcloneEvent) : Bool :=
  match e.cmdOf[1]? with
  | some c => c == "dedupe"
  | none => false

/-- Does the command carry the `--update` (update-only) flag? -/
def isUpdateOnly (e : RcloneEvent) : Bool :=
  e.cmdOf.contains "--update"

/-- A concrete configuration used for witnesses and counterexamples. -/
def cfgEx : Process :=
  { remote_path := "gdrive:notes"
    local_path := "/home/user/notes"
    modify_window := "1s"
    batch_cooldown := 5
    poll_interval := 30 }

/-!
## The batching loop of `_sync` (lines 101-109)

Under the cooperative asyncio scheduling model, the watcher and the poller can
only run — and hence the dirty flags `_local_changed` / `_remote_changed` can
only change — while the coalescer is suspended, and the only suspension point
inside the batching loop is the cooldown sleep on line 109.  The environment of
one batching pass is therefore fully described by, for each cooldown sleep,
whether a local (resp. remote) change event is delivered during that sleep.
`_sync_batch l r np npl arr` runs the loop from flag state `(l, r)` and
accumulators `(np, npl)`, with `arr` listing those per-sleep deliveries (the
flag values found on waking from each successive sleep); deliveries after the
pass exits belong to the next pass and are ignored.  It returns the final
`need_push`, the final `need_pull`, and the number of loop iterations executed
— each iteration records both flags (lines 105-106), clears both flags in one
atomic step (line 107, no `await` between the reads and the clear), and then
sleeps for `batch_cooldown` (line 109).
-/

/-- The batching loop, lines 104-109 of `process.py` (see the section note
for the encoding of the environment). -/
def _sync_batch : Bool → Bool → Bool → Bool → List (Bool × Bool) →
    Bool × Bool × Nat
  | l, r, np, npl, [] =>
    if l || r then (np || l, npl || r, 1) else (np, npl, 0)
  | l, r, np, npl, (al, ar) :: rest =>
    if l || r then
      let res := _sync_batch al ar (np || l) (npl || r) rest
      (res.1, res.2.1, res.2.2 + 1)
    else (np, npl, 0)

/-- The per-sleep deliveries a batching pass consumes before its final quiet
sleep: the longest initial stretch of sleeps during each of which some change
arrives. -/
def activeWindow (arr : List (Bool × Bool)) : List (Bool × Bool) :=
  arr.takeWhile (fun p => p.1 || p.2)

/-!
## One cycle of `_poll_remote` (lines 76-90)

`_fetch_remote_state` (lines 65-68) runs `rclone lsjson --recursive`, reads its
stdout to EOF (this one does wait for the child), parses the JSON into a list
of entries and sorts it by the `Path` field.  We abstract the fetch itself: the
raw parsed listing is an input, and only the sort is kept.  Python's `sorted`
with a key function is a stable sort; `List.insertionSort` by the same key is
also stable, hence produces the identical list.
-/

/-- One entry of the parsed `lsjson` listing.  Only `path` is ever used as a
sort key; the other fields take part in structural equality exactly as the
parsed JSON objects do (size may be `-1` for directories, the modification
time is the JSON string). -/
structure Entry where
  path : String
  size : Int
  modTime : String
deriving DecidableEq

/-- Sorting of the listing by the `Path` key (line 68), a stable sort as in
Python. -/
def sortByPath (l : List Entry) : List Entry :=
  l.insertionSort (fun a b => a.path ≤ b.path)

/-- `_fetch_remote_state` (lines 65-68), abstracted over the raw parsed
listing: the result is the listing sorted by path. -/
def _fetch_remote_state (raw : List Entry) : List Entry :=
  sortByPath raw

/-- One iteration of the `_poll_remote` loop (lines 79-90), given the current
`_remote_changed` flag, the `last_state` baseline (`none` is Python's initial
`None`; a list compares unequal to `None`), and the raw listing the fetch
returns this cycle.  Returns the new flag value and the new baseline. -/
def _poll_cycle (remote_changed : Bool) (last_state : Option (List Entry))
    (raw : List Entry) : Bool × Option (List Entry) :=
  let new_state := _fetch_remote_state raw
  if some new_state ≠ last_state then (true, some new_state)
  else (remote_changed, last_state)

instance : IsTotal Entry (fun a b => a.path ≤ b.path) :=
  ⟨fun a b => le_total a.path b.path⟩

instance : IsTrans Entry (fun a b => a.path ≤ b.path) :=
  ⟨fun _ _ _ h1 h2 => le_trans h1 h2⟩

instance : IsAntisymm Entry (fun a b => a.path < b.path) :=
  ⟨fun _ _ h1 h2 => absurd h1 (asymm h2)⟩

/-- Concrete entry for counterexamples and witnesses: one of two distinct
remote objects carrying the same path (rclone remotes such as Google Drive
admit duplicate names — the very situation the dedupe pass exists for). -/
def entA1 : Entry := { path := "a", size := 1, modTime := "x" }

/-- Second entry with the same path as `entA1` but different size. -/
def entA2 : Entry := { path := "a", size := 2, modTime := "x" }

/-- An entry with a path distinct from `entA1`. -/
def entB : Entry := { path := "b", size := 2, modTime := "y" }

/-!
## The coordinator join (lines 131-144)

`run_async` runs the three tasks with `await asyncio.gather(...)` (default
`return_exceptions=False`).  Documented semantics: the `await` resolves by
raising as soon as some task has raised, and resolves normally once all tasks
have completed normally; a single task completing normally while others still
run leaves the `await` pending and the remaining tasks running.  When the
`await` resolves, `run_async` finishes, `asyncio.run` cancels whatever is left
and returns or re-raises, and the process exits.
-/

/-- Status of one of the gathered tasks. -/
inductive TaskStatus where
  | running
  | done
  | failed
deriving DecidableEq

/-- Whether `await asyncio.gather(tasks)` has resolved (normally or by
raising) given the statuses of the gathered tasks. -/
def gatherResolved (s : List TaskStatus) : Bool :=
  s.any (fun t => t == .failed) || s.all (fun t => t == .done)

/-- Whether the process running `run_async` terminates, given the statuses of
its three gathered tasks `_watch_local`, `_poll_remote`, `_sync`
(lines 140-144). -/
def run_async_terminates (watcher poller coalescer : TaskStatus) : Bool :=
  gatherResolved [watcher, poller, coalescer]

/-! ## Helper lemmas -/

/-- With both flags false the loop body is never entered: no iteration runs,
nothing is recorded, nothing is cleared. -/
lemma _sync_batch_idle (np npl : Bool) (arr : List (Bool × Bool)) :
    _sync_batch false false np npl arr = (np, npl, 0) := by
  cases arr with
  | nil => simp [_sync_batch]
  | cons hd rest =>
    obtain ⟨a, b⟩ := hd
    simp [_sync_batch]

/-- Iteration count of a batching pass entered with a flag set: one iteration
per change-bearing sleep of the initial stretch, plus the final quiet sleep. -/
lemma _sync_batch_count (arr : List (Bool × Bool)) :
    ∀ l r np npl : Bool, (l || r) = true →
      (_sync_batch l r np npl arr).2.2 = (activeWindow arr).length + 1 := by
  induction arr with
  | nil =>
    intro l r np npl h
    simp [_sync_batch, h, activeWindow]
  | cons hd rest ih =>
    intro l r np npl h
    obtain ⟨al, ar⟩ := hd
    by_cases hal : (al || ar) = true
    · simp [_sync_batch, h, activeWindow, List.takeWhile_cons, hal,
        ih al ar (np || l) (npl || r) hal]
    · simp only [Bool.or_eq_true, not_or, Bool.not_eq_true] at hal
      obtain ⟨ha1, ha2⟩ := hal
      subst ha1; subst ha2
      simp [_sync_batch, h, activeWindow, List.takeWhile_cons, _sync_batch_idle]

/-- Accumulation of a batching pass entered with a flag set: the final
`need_push` (resp. `need_pull`) is the disjunction of its initial value, the
initial flag, and the deliveries consumed before the final quiet sleep. -/
lemma _sync_batch_need (arr : List (Bool × Bool)) :
    ∀ l r np npl : Bool, (l || r) = true →
      (_sync_batch l r np npl arr).1 =
        (np || l || (activeWindow arr).any (fun p => p.1)) ∧
      (_sync_batch l r np npl arr).2.1 =
        (npl || r || (activeWindow arr).any (fun p => p.2)) := by
  induction arr with
  | nil =>
    intro l r np npl h
    simp [_sync_batch, h, activeWindow]
  | cons hd rest ih =>
    intro l r np npl h
    obtain ⟨al, ar⟩ := hd
    by_cases hal : (al || ar) = true
    · obtain ⟨ih1, ih2⟩ := ih al ar (np || l) (npl || r) hal
      simp [_sync_batch, h, activeWindow, List.takeWhile_cons, hal, ih1, ih2,
        Bool.or_assoc]
    · simp only [Bool.or_eq_true, not_or, Bool.not_eq_true] at hal
      obtain ⟨ha1, ha2⟩ := hal
      subst ha1; subst ha2
      simp [_sync_batch, h, activeWindow, List.takeWhile_cons, _sync_batch_idle]

/-- When at least one direction is needed, the ACTION phase resolves to a
trace (the assertion branch is not taken). -/
lemma _sync_action_isSome (cfg : Process) (np npl : Bool)
    (h : (np || npl) = true) : (_sync_action cfg np npl).isSome = true := by
  cases np <;> cases npl <;> simp_all [_sync_action, _resolve_direction]

/-- A chain that is weakly sorted by path and has pairwise distinct paths is
strictly sorted by path. -/
lemma pairwise_path_lt_of_le_of_ne : ∀ {l : List Entry},
    l.Pairwise (fun a b => a.path ≤ b.path) →
    l.Pairwise (fun a b => a.path ≠ b.path) →
    l.Pairwise (fun a b => a.path < b.path) := by
  intro l h1 h2
  induction l with
  | nil => exact List.Pairwise.nil
  | cons a t ih =>
    obtain ⟨ha1, ht1⟩ := List.pairwise_cons.mp h1
    obtain ⟨ha2, ht2⟩ := List.pairwise_cons.mp h2
    exact List.pairwise_cons.mpr
      ⟨fun b hb => lt_of_le_of_ne (ha1 b hb) (ha2 b hb), ih ht1 ht2⟩

/-- If the paths of a listing are pairwise distinct, its path-sorted form is
strictly sorted by path. -/
lemma sortByPath_pairwise_lt (l : List Entry)
    (h : (l.map Entry.path).Nodup) :
    (sortByPath l).Pairwise (fun a b => a.path < b.path) := by
  have hs : (sortByPath l).Pairwise (fun a b => a.path ≤ b.path) :=
    List.sorted_insertionSort _ l
  have hperm : List.Perm (sortByPath l) l := List.perm_insertionSort _ l
  have hnodup : ((sortByPath l).map Entry.path).Nodup :=
    ((hperm.map Entry.path).nodup_iff).mpr h
  exact pairwise_path_lt_of_le_of_ne hs (List.pairwise_map.mp hnodup)

/-! ## The claims -/

/-- C4: in every batching-loop iteration the coalescer records the flags into
`need_push`/`need_pull`, clears both flags, and only then sleeps for the batch
cooldown (this is the structure of `_sync_batch`, embedding lines 104-109);
starting from an observed flag state `(l, r)` the pass performs exactly one
iteration — i.e. one cooldown sleep — per element of the initial stretch of
sleeps during which a change arrives, plus one final quiet sleep, after which
it exits to ACTION.  So the loop exits exactly when a cooldown sleep completes
with neither flag re-set during that sleep, and any change arriving during a
sleep extends the batching pass by another iteration. -/
theorem batch_exit_on_quiet_window (l r : Bool) (arr : List (Bool × Bool))
    (h : (l || r) = true) :
    (_sync_batch l r false false arr).2.2 = (activeWindow arr).length + 1 :=
  _sync_batch_count arr l r false false h

/-- Witness for `batch_exit_on_quiet_window`: entered with the local flag set,
with one change arriving during the first sleep and silence during the second,
the pass runs exactly two iterations. -/
theorem batch_exit_on_quiet_window_witness :
    (_sync_batch true false false false [(false, true), (false, false)]).2.2 =
      2 :=
  (batch_exit_on_quiet_window true false [(false, true), (false, false)]
    (by decide)).trans (by decide)

/-- C7 counterexample: a batching pass entered with the local flag set during
which one further change arrives runs two iterations, and each iteration
clears the flag pair once (line 107 of `process.py` runs once per iteration),
so the flags are cleared twice in this single pass — not exactly once as the
claim states. -/
theorem batch_clear_counterexample :
    (_sync_batch true false false false [(true, false)]).2.2 = 2 ∧ 2 ≠ 1 := by
  decide

/-- C7 (amended): the flags are set only by the watcher/poller and cleared
only by the coalescer, in an atomic read-and-clear step (lines 105-107 hold no
suspension point); the coalescer clears both flags exactly once per
batching-loop **iteration** — hence `(activeWindow arr).length + 1` times per
batching pass, at least once — and no observed change is lost: the final
`need_push`/`need_pull` are exactly the disjunctions of the entry flags with
the deliveries consumed by the pass. -/
theorem batch_clear_once_per_iteration (l r : Bool) (arr : List (Bool × Bool))
    (h : (l || r) = true) :
    (_sync_batch l r false false arr).2.2 = (activeWindow arr).length + 1 ∧
    1 ≤ (_sync_batch l r false false arr).2.2 ∧
    (_sync_batch l r false false arr).1 =
      (l || (activeWindow arr).any (fun p => p.1)) ∧
    (_sync_batch l r false false arr).2.1 =
      (r || (activeWindow arr).any (fun p => p.2)) := by
  obtain ⟨h1, h2⟩ := _sync_batch_need arr l r false false h
  refine ⟨_sync_batch_count arr l r false false h, ?_, ?_, ?_⟩
  · rw [_sync_batch_count arr l r false false h]
    exact Nat.le_add_left 1 _
  · simpa using h1
  · simpa using h2

/-- Witness for `batch_clear_once_per_iteration`: a pass entered with the
local flag set, with a remote change arriving during the first sleep, clears
the flags twice and records both directions. -/
theorem batch_clear_once_per_iteration_witness :
    (_sync_batch true false false false [(false, true)]).2.2 = 2 ∧
    (_sync_batch true false false false [(false, true)]).1 = true ∧
    (_sync_batch true false false false [(false, true)]).2.1 = true := by
  have h := batch_clear_once_per_iteration true false [(false, true)]
    (by decide)
  exact ⟨h.1.trans (by decide), h.2.2.1.trans (by decide),
    h.2.2.2.trans (by decide)⟩

/-- C6: whenever the coalescer reaches the ACTION phase — that is, after a
batching pass that was entered with some flag observed true — at least one of
`need_push`/`need_pull` is true, so the direction resolution succeeds and the
`assert False` branch is unreachable under the cooperative scheduling model. -/
theorem action_flags_nonempty (cfg : Process) (l r : Bool)
    (arr : List (Bool × Bool)) (h : (l || r) = true) :
    (_sync_action cfg (_sync_batch l r false false arr).1
      (_sync_batch l r false false arr).2.1).isSome = true := by
  obtain ⟨h1, h2⟩ := _sync_batch_need arr l r false false h
  apply _sync_action_isSome
  rw [h1, h2]
  rcases (by simpa using h : l = true ∨ r = true) with hl | hr
  · subst hl; simp
  · subst hr; simp

/-- Witness for `action_flags_nonempty`: a pass entered with only the local
flag set and no further arrivals leads to an ACTION phase that resolves. -/
theorem action_flags_nonempty_witness :
    (_sync_action cfgEx (_sync_batch true false false false []).1
      (_sync_batch true false false false []).2.1).isSome = true :=
  action_flags_nonempty cfgEx true false [] (by decide)

/-- C1 counterexample: at a concrete configuration with distinct paths, the
both-directions ACTION phase issues its two copies remote→local first and
local→remote second (`_cross_copy`, lines 56-57 of `process.py`) — not
local→remote first as the claim states. -/
theorem cross_copy_order_counterexample :
    (_sync_action cfgEx true true).map (fun t => t.filter isCopy) ≠
      some [.spawn (_copy_update cfgEx cfgEx.local_path cfgEx.remote_path),
            .spawn (_copy_update cfgEx cfgEx.remote_path cfgEx.local_path)] ∧
    (_sync_action cfgEx true true).map (fun t => t.filter isCopy) =
      some [.spawn (_copy_update cfgEx cfgEx.remote_path cfgEx.local_path),
            .spawn (_copy_update cfgEx cfgEx.local_path cfgEx.remote_path)] := by
  decide

/-- C1 (amended): when a batching pass ends with both `need_push` and
`need_pull` true, the ACTION phase performs a cross-copy consisting of exactly
two copy invocations with update-only semantics, in the order remote→local
first, then local→remote. -/
theorem cross_copy_order_amended (cfg : Process) :
    (_sync_action cfg true true).map (fun t => t.filter isCopy) =
      some [.spawn (_copy_update cfg cfg.remote_path cfg.local_path),
            .spawn (_copy_update cfg cfg.local_path cfg.remote_path)] ∧
    (∀ source dest : String,
      isUpdateOnly (.spawn (_copy_update cfg source dest)) = true) := by
  exact ⟨rfl, fun source dest => rfl⟩

/-- C2 (code bug): every transfer invocation the coordinator or coalescer
issues is a bare process spawn — `await`-ing
`asyncio.create_subprocess_exec` resolves when the child has started, and the
code never waits for a transfer child's exit — so the trace of the start-up
cross-copy and of a both-directions ACTION phase holds spawn events only, and
in particular the second copy is issued without any wait for the first's
completion. -/
theorem transfer_spawn_without_wait :
    (_cross_copy cfgEx).map RcloneEvent.isSpawn = [true, true] ∧
    (_sync_action cfgEx true true).map (fun t => t.all RcloneEvent.isSpawn) =
      some true ∧
    2 ≤ (_cross_copy cfgEx).length := by
  decide

/-- C3 counterexample: with the watcher task completed normally and the poller
and coalescer still running, `asyncio.gather` has not resolved, so the process
keeps running with only a subset of the tasks — a task has terminated
(normally) yet the coordinator does not terminate the whole process. -/
theorem gather_normal_exit_counterexample :
    TaskStatus.done ≠ TaskStatus.running ∧
    run_async_terminates .done .running .running = false := by
  decide

/-- C3 (amended): if any one of the three gathered tasks terminates
**abnormally** (raises), the `await asyncio.gather(...)` in `run_async`
resolves and the whole process terminates; a task terminating normally does
not by itself terminate the process (see the counterexample). -/
theorem gather_fail_fast (w p c : TaskStatus)
    (h : w = .failed ∨ p = .failed ∨ c = .failed) :
    run_async_terminates w p c = true := by
  rcases h with rfl | rfl | rfl <;>
    simp [run_async_terminates, gatherResolved]

/-- Witness for `gather_fail_fast`: a poller failure terminates the process. -/
theorem gather_fail_fast_witness :
    run_async_terminates .running .failed .running = true :=
  gather_fail_fast .running .failed .running (Or.inr (Or.inl rfl))

/-- C5: when a batching pass ends with `need_push` true and `need_pull` false,
the ACTION phase issues exactly one mirror-sync, local→remote, and no copy;
symmetrically with only `need_pull` true it issues exactly one mirror-sync,
remote→local, and no copy — so no cross-copy is performed in either case. -/
theorem one_way_sync_direction (cfg : Process) :
    (_sync_action cfg true false).map (fun t => t.filter isSync) =
      some [.spawn (_sync_update cfg cfg.local_path cfg.remote_path)] ∧
    (_sync_action cfg true false).map (fun t => t.filter isCopy) = some [] ∧
    (_sync_action cfg false true).map (fun t => t.filter isSync) =
      some [.spawn (_sync_update cfg cfg.remote_path cfg.local_path)] ∧
    (_sync_action cfg false true).map (fun t => t.filter isCopy) = some [] := by
  exact ⟨rfl, rfl, rfl, rfl⟩

/-- C10: whenever the ACTION phase runs (some direction is needed), its trace
is exactly one dedupe spawn, then the resolved sync action, then one dedupe
spawn: the resolved middle section holds no dedupe, the whole trace holds
exactly two dedupe invocations, and nothing besides the resolved action
stands between them. -/
theorem dedupe_bracketing (cfg : Process) (np npl : Bool)
    (h : (np || npl) = true) :
    ∃ mid, _resolve_direction cfg np npl = some mid ∧
      _sync_action cfg np npl =
        some (_dedupe_events cfg ++ mid ++ _dedupe_events cfg) ∧
      mid.filter isDedupe = [] ∧
      ((_dedupe_events cfg ++ mid ++ _dedupe_events cfg).filter
        isDedupe).length = 2 := by
  cases np <;> cases npl
  · simp at h
  · exact ⟨_, rfl, rfl, rfl, rfl⟩
  · exact ⟨_, rfl, rfl, rfl, rfl⟩
  · exact ⟨_, rfl, rfl, rfl, rfl⟩

/-- Witness for `dedupe_bracketing`: in a both-directions ACTION phase at the
concrete configuration, the trace holds exactly two dedupe invocations. -/
theorem dedupe_bracketing_witness :
    (_sync_action cfgEx true true).map
      (fun t => (t.filter isDedupe).length) = some 2 := by
  obtain ⟨mid, -, h2, -, h4⟩ := dedupe_bracketing cfgEx true true (by decide)
  rw [h2]
  simpa using h4

/-- C8: one `_poll_remote` cycle sets `_remote_changed` to true and stores the
new baseline exactly when the freshly fetched sorted listing differs from the
previous baseline, and leaves both the flag and the baseline untouched
otherwise; since the initial baseline is `none` (Python's `None`), the first
poll always signals a change, and a cycle whose listing equals the previous
one leaves a cleared `_remote_changed` false. -/
theorem poll_cycle_change_detection (rc : Bool) (last : Option (List Entry))
    (raw : List Entry) :
    _poll_cycle rc none raw = (true, some (_fetch_remote_state raw)) ∧
    (some (_fetch_remote_state raw) ≠ last →
      _poll_cycle rc last raw = (true, some (_fetch_remote_state raw))) ∧
    (some (_fetch_remote_state raw) = last →
      _poll_cycle rc last raw = (rc, last)) ∧
    _poll_cycle false (some (_fetch_remote_state raw)) raw =
      (false, some (_fetch_remote_state raw)) := by
  refine ⟨?_, ?_, ?_, ?_⟩
  · simp [_poll_cycle]
  · intro h
    simp [_poll_cycle, h]
  · intro h
    simp [_poll_cycle, h]
  · simp [_poll_cycle]

/-- Witness for `poll_cycle_change_detection`: a cycle whose fetched listing
(empty) differs from the stored baseline signals a change and replaces the
baseline. -/
theorem poll_cycle_change_detection_witness :
    _poll_cycle false (some [(⟨"a", 3, "t"⟩ : Entry)]) [] = (true, some []) :=
  ((poll_cycle_change_detection false (some [(⟨"a", 3, "t"⟩ : Entry)])
    []).2.1 (by decide)).trans (by decide)

/-- C9 counterexample: two listings that are permutations of each other but
hold two distinct entries with the same path; the stable sort by path keeps
their relative order, so the sorted listings differ and one poll cycle's
comparison against the same baseline yields different results for the two
orders. -/
theorem sort_perm_counterexample :
    List.Perm [entA1, entA2] [entA2, entA1] ∧
    sortByPath [entA1, entA2] ≠ sortByPath [entA2, entA1] ∧
    _poll_cycle false (some (sortByPath [entA1, entA2])) [entA1, entA2] ≠
      _poll_cycle false (some (sortByPath [entA1, entA2])) [entA2, entA1] := by
  have h12 : sortByPath [entA1, entA2] = [entA1, entA2] := by
    simp [sortByPath, List.insertionSort, List.orderedInsert, entA1, entA2]
  have h21 : sortByPath [entA2, entA1] = [entA2, entA1] := by
    simp [sortByPath, List.insertionSort, List.orderedInsert, entA1, entA2]
  refine ⟨by decide, ?_, ?_⟩
  · rw [h12, h21]
    decide
  · simp only [_poll_cycle, _fetch_remote_state, h12, h21]
    decide

/-- C9 (amended): for two listings that are permutations of each other and
whose entry paths are pairwise distinct, sorting by path yields the same list,
so a poll cycle's structural comparison against any baseline — and hence its
result — is independent of the original entry order. -/
theorem sort_perm_nodup_paths (l₁ l₂ : List Entry)
    (hperm : List.Perm l₁ l₂) (hnd : (l₁.map Entry.path).Nodup) :
    sortByPath l₁ = sortByPath l₂ ∧
    ∀ rc last, _poll_cycle rc last l₁ = _poll_cycle rc last l₂ := by
  have hnd₂ : (l₂.map Entry.path).Nodup :=
    ((hperm.map Entry.path).nodup_iff).mp hnd
  have hp : List.Perm (sortByPath l₁) (sortByPath l₂) :=
    (List.perm_insertionSort _ l₁).trans
      (hperm.trans (List.perm_insertionSort _ l₂).symm)
  have heq : sortByPath l₁ = sortByPath l₂ :=
    List.eq_of_perm_of_sorted hp (sortByPath_pairwise_lt l₁ hnd)
      (sortByPath_pairwise_lt l₂ hnd₂)
  refine ⟨heq, fun rc last => ?_⟩
  simp [_poll_cycle, _fetch_remote_state, heq]

/-- Witness for `sort_perm_nodup_paths`: the two orders of a two-entry listing
with distinct paths sort to the same list. -/
theorem sort_perm_nodup_paths_witness :
    sortByPath [entA1, entB] = sortByPath [entB, entA1] :=
  (sort_perm_nodup_paths [entA1, entB] [entB, entA1] (by decide)
    (by decide)).1

end RCoffee
